import Mathlib

/-!
Shallow embedding of the URL scam-detector service (`src/main.py`).

Strings are modelled by Lean `String` (operating on the underlying
`List Char`); Python float probabilities and thresholds by `ℚ` (the only
operations the code performs on them are order comparisons, which are
exact); the externally loaded classifier/vectorizer pair by an injected
scorer function `String → Except String ℚ` (a Python exception is the
`.error` case); the clock and the request client address by explicit
parameters.  Case-folding is modelled for ASCII (`Char.toLower`), which
covers every string the service configuration and the claims mention.
-/

namespace UrlScam

/-! ### Python `urllib.parse` — the part `extract_base_domain` uses

`urlsplit` first strips leading C0-control-or-space characters and removes
every tab, carriage return and line feed; then it splits off a scheme
(`[A-Za-z][A-Za-z0-9+.-]*` before the first `:`); a network location is
present exactly when the remainder starts with `//`, and extends to the
first of `/`, `?`, `#`; a netloc containing `[` without `]` (or vice
versa) raises `ValueError("Invalid IPv6 URL")`.  Only the `netloc`
component is consumed by the program, so the parse result is modelled as
that component alone. -/

/-- WHATWG C0 control or space: code point ≤ 0x20. -/
def c0ControlOrSpace (c : Char) : Bool := c.val ≤ 32

/-- The bytes `urlsplit` removes from the URL: tab, CR, LF. -/
def urlByteToRemove (c : Char) : Bool := c = '\t' || c = '\r' || c = '\n'

/-- Characters allowed in a URL scheme (`scheme_chars`). -/
def schemeChar (c : Char) : Bool :=
  c.isAlpha || c.isDigit || c = '+' || c = '-' || c = '.'

/-- Characters that terminate the network-location component. -/
def netlocDelim (c : Char) : Bool := c = '/' || c = '?' || c = '#'

/-- The input cleaning `urlsplit` performs before parsing. -/
def cleanUrl (l : List Char) : List Char :=
  (l.dropWhile c0ControlOrSpace).filter (fun c => !urlByteToRemove c)

/-- Drop a leading `scheme:` when the text before the first colon is a
well-formed scheme (nonempty, starts with an ASCII letter, every character
a scheme character); otherwise leave the input unchanged. -/
def splitSchemeRest (l : List Char) : List Char :=
  match l.findIdx? (fun c => c = ':') with
  | some i =>
      if 0 < i && (l.headD ' ').isAlpha && (l.take i).all schemeChar then
        l.drop (i + 1)
      else l
  | none => l

/-- `urlparse url`: the `netloc` component of Python's parse result, or
`.error` when `urlsplit` raises (mismatched IPv6 bracket in the netloc). -/
def urlparse (url : String) : Except String String :=
  let u := splitSchemeRest (cleanUrl url.data)
  if u.take 2 = ['/', '/'] then
    let nl := (u.drop 2).takeWhile (fun c => !netlocDelim c)
    if (nl.contains '[' && !nl.contains ']') ||
       (nl.contains ']' && !nl.contains '[') then
      .error "Invalid IPv6 URL"
    else .ok ⟨nl⟩
  else .ok ""

/-! ### Python string primitives the endpoint uses -/

/-- Python `str.lower`, for ASCII text. -/
def pyLower (s : String) : String := ⟨s.data.map Char.toLower⟩

/-- Python whitespace (`str.strip` with no argument): ASCII space,
`\t\n\v\f\r`, the separators 0x1c–0x1f, NEL, NBSP, and the Unicode
space/line/paragraph separators. -/
def pyIsSpace (c : Char) : Bool :=
  c = ' ' || (9 ≤ c.val && c.val ≤ 13) || (28 ≤ c.val && c.val ≤ 31) ||
  c.val = 0x85 || c.val = 0xa0 || c.val = 0x1680 ||
  (0x2000 ≤ c.val && c.val ≤ 0x200a) || c.val = 0x2028 || c.val = 0x2029 ||
  c.val = 0x202f || c.val = 0x205f || c.val = 0x3000

/-- Python `str.strip()`: remove leading and trailing whitespace. -/
def pyStrip (s : String) : String :=
  ⟨((s.data.dropWhile pyIsSpace).reverse.dropWhile pyIsSpace).reverse⟩

/-! ### `src/main.py` helper functions -/

/-- `extract_base_domain`: netloc of the parsed URL, lower-cased, one
leading `www.` stripped; on a parse exception, the lower-cased input. -/
def extract_base_domain (url : String) : String :=
  match urlparse url with
  | .ok netloc =>
      let domain := pyLower netloc
      if ['w', 'w', 'w', '.'].isPrefixOf domain.data then ⟨domain.data.drop 4⟩
      else domain
  | .error _ => pyLower url

/-- The configured `TRUSTED_DOMAINS` set (membership is all that matters,
so the Python `set` is modelled as the list of its elements). -/
def TRUSTED_DOMAINS : List String :=
  ["google.com", "https://translate.google.com/", "youtube.com",
   "facebook.com", "twitter.com", "instagram.com", "linkedin.com",
   "microsoft.com", "apple.com", "amazon.com", "netflix.com", "github.com",
   "paypal.com", "wikipedia.org", "whatsapp.com", "imamu.edu.sa", "edu.sa",
   "gov.sa", "moe.gov.sa", "kfupm.edu.sa", "kaust.edu.sa"]

/-- The two-step trust match of `is_trusted_domain`, on the already
resolved domain: exact membership, else some entry that starts with `.`
is a suffix of the domain. -/
def domainTrustedIn (registry : List String) (domain : String) : Bool :=
  if registry.contains domain then true
  else registry.any (fun trusted =>
    trusted.data.headD ' ' = '.' && trusted.data.isSuffixOf domain.data)

/-- `is_trusted_domain`, generalised over the configured registry. -/
def is_trusted_domain_with (registry : List String) (url : String) : Bool :=
  domainTrustedIn registry (extract_base_domain url)

/-- `is_trusted_domain`: resolve the domain, then the two-step match
against `TRUSTED_DOMAINS`. -/
def is_trusted_domain (url : String) : Bool :=
  is_trusted_domain_with TRUSTED_DOMAINS url

/-- `classify_proba`: three-level decision against the configured
thresholds, checked in source order. -/
def classify_proba (tSafe tMal : ℚ) (proba : ℚ) : String :=
  if proba ≥ tMal then "malicious"
  else if proba ≤ tSafe then "benign"
  else "suspicious"

/-- `model_predict`: run the injected scorer on the URL and classify;
a scorer exception propagates. -/
def model_predict (tSafe tMal : ℚ) (scorer : String → Except String ℚ)
    (url : String) : Except String (String × ℚ) :=
  match scorer url with
  | .error e => .error e
  | .ok probaMalicious => .ok (classify_proba tSafe tMal probaMalicious, probaMalicious)

/-! ### The `/predict` endpoint -/

/-- The JSON response assembled by `predict_url` (the nested
`thresholds` object is flattened into its two fields). -/
structure DecisionRecord where
  url : String
  domain : String
  trusted_domain : Bool
  prediction : String
  probability_malicious : ℚ
  thresholds_safe : ℚ
  thresholds_malicious : ℚ
  model_version : String
  source : String
  timestamp : String
deriving DecidableEq

/-- The JSONL audit entry written by `predict_url` (same data plus the
client address, minus nothing else). -/
structure LogEntry where
  timestamp : String
  client_ip : Option String
  url : String
  domain : String
  prediction : String
  probability_malicious : ℚ
  trusted_domain : Bool
  thresholds_safe : ℚ
  thresholds_malicious : ℚ
  model_version : String
  source : String
deriving DecidableEq

/-- `predict_url`: strip the input, resolve the domain, check the trust
list; a trusted domain short-circuits to (`benign`, 0.01, `whitelist`),
otherwise the scorer and `classify_proba` decide and the source is
`model`; assemble the response and the audit entry.  The thresholds,
model version, scorer, client address and clock reading are the process
configuration and request context, passed explicitly. -/
def predict_url (tSafe tMal : ℚ) (modelVersion : String)
    (scorer : String → Except String ℚ) (clientHost : Option String)
    (now : String) (rawUrl : String) :
    Except String (DecisionRecord × LogEntry) :=
  let url := pyStrip rawUrl
  let domain := extract_base_domain url
  let trusted := is_trusted_domain url
  let outcome : Except String (String × ℚ × String) :=
    if trusted then .ok ("benign", 1/100, "whitelist")
    else
      match model_predict tSafe tMal scorer url with
      | .error e => .error e
      | .ok (label, probaMalicious) => .ok (label, probaMalicious, "model")
  match outcome with
  | .error e => .error e
  | .ok (label, probaMalicious, source) =>
      .ok ({ url := url, domain := domain, trusted_domain := trusted,
             prediction := label, probability_malicious := probaMalicious,
             thresholds_safe := tSafe, thresholds_malicious := tMal,
             model_version := modelVersion, source := source,
             timestamp := now },
           { timestamp := now, client_ip := clientHost, url := url,
             domain := domain, prediction := label,
             probability_malicious := probaMalicious,
             trusted_domain := trusted, thresholds_safe := tSafe,
             thresholds_malicious := tMal, model_version := modelVersion,
             source := source })

/-- Severity ordering on the three labels:
benign < suspicious < malicious. -/
def severity (label : String) : ℕ :=
  if label = "malicious" then 2 else if label = "suspicious" then 1 else 0


/-- Claim C1: trusted domains short-circuit to a fixed benign whitelist
decision, identical for every possible scorer. -/
theorem C1_trust_override (tSafe tMal : ℚ) (modelVersion : String)
    (client : Option String) (now raw : String)
    (h : is_trusted_domain (pyStrip raw) = true) :
    ∃ rl : DecisionRecord × LogEntry,
      (∀ scorer, predict_url tSafe tMal modelVersion scorer client now raw = .ok rl) ∧
      rl.1.prediction = "benign" ∧ rl.1.probability_malicious = 1/100 ∧
      rl.1.source = "whitelist" ∧ rl.2.prediction = "benign" ∧
      rl.2.probability_malicious = 1/100 ∧ rl.2.source = "whitelist" := by
  refine ⟨({ url := pyStrip raw, domain := extract_base_domain (pyStrip raw),
             trusted_domain := true, prediction := "benign",
             probability_malicious := 1/100, thresholds_safe := tSafe,
             thresholds_malicious := tMal, model_version := modelVersion,
             source := "whitelist", timestamp := now },
           { timestamp := now, client_ip := client, url := pyStrip raw,
             domain := extract_base_domain (pyStrip raw), prediction := "benign",
             probability_malicious := 1/100, trusted_domain := true,
             thresholds_safe := tSafe, thresholds_malicious := tMal,
             model_version := modelVersion, source := "whitelist" }),
         fun scorer => ?_, rfl, rfl, rfl, rfl, rfl, rfl⟩
  simp only [predict_url, h, if_true]

theorem C1_witness :
    is_trusted_domain (pyStrip "https://google.com/") = true ∧
    ∃ rl : DecisionRecord × LogEntry,
      (∀ scorer, predict_url (3/10) (7/10) "v2.0" scorer none "2026-10-12T00:00:00Z"
          "https://google.com/" = .ok rl) ∧
      rl.1.prediction = "benign" ∧ rl.1.probability_malicious = 1/100 ∧
      rl.1.source = "whitelist" ∧ rl.2.prediction = "benign" ∧
      rl.2.probability_malicious = 1/100 ∧ rl.2.source = "whitelist" :=
  ⟨by decide,
   C1_trust_override (3/10) (7/10) "v2.0" none "2026-10-12T00:00:00Z"
     "https://google.com/" (by decide)⟩

/-- Claim C2: threshold classification is total with the three labels,
checked in source order, with the documented boundary cases at
thresholds (0.3, 0.7). -/
theorem C2_threshold_classification (tSafe tMal p : ℚ)
    (hp0 : 0 ≤ p) (hp1 : p ≤ 1) (hst : tSafe ≤ tMal) :
    (classify_proba tSafe tMal p = "benign" ∨
     classify_proba tSafe tMal p = "suspicious" ∨
     classify_proba tSafe tMal p = "malicious") ∧
    (tMal ≤ p → classify_proba tSafe tMal p = "malicious") ∧
    (¬ tMal ≤ p → p ≤ tSafe → classify_proba tSafe tMal p = "benign") ∧
    (¬ tMal ≤ p → ¬ p ≤ tSafe → classify_proba tSafe tMal p = "suspicious") ∧
    classify_proba (3/10) (7/10) (3/10) = "benign" ∧
    classify_proba (3/10) (7/10) (7/10) = "malicious" ∧
    classify_proba (3/10) (7/10) (5/10) = "suspicious" ∧
    classify_proba (3/10) (7/10) 0 = "benign" ∧
    classify_proba (3/10) (7/10) 1 = "malicious" := by
  refine ⟨?_, ?_, ?_, ?_, by norm_num [classify_proba], by norm_num [classify_proba],
    by norm_num [classify_proba], by norm_num [classify_proba], by norm_num [classify_proba]⟩ <;>
    unfold classify_proba
  · split_ifs <;> simp
  · intro h; rw [if_pos h]
  · intro h1 h2; rw [if_neg h1, if_pos h2]
  · intro h1 h2; rw [if_neg h1, if_neg h2]

theorem C2_witness :
    ((0:ℚ) ≤ 0 ∧ (0:ℚ) ≤ 1 ∧ (0:ℚ) ≤ 1) ∧
    (classify_proba 0 1 0 = "benign" ∨ classify_proba 0 1 0 = "suspicious" ∨
     classify_proba 0 1 0 = "malicious") :=
  ⟨⟨by decide, by decide, by decide⟩,
   (C2_threshold_classification 0 1 0 (by decide) (by decide) (by decide)).1⟩

/-- Claim C5: classification severity is monotone in the probability. -/
theorem C5_monotonicity (tSafe tMal p1 p2 : ℚ)
    (hst : tSafe ≤ tMal) (hp : p1 < p2) :
    severity (classify_proba tSafe tMal p1) ≤ severity (classify_proba tSafe tMal p2) := by
  unfold classify_proba
  split_ifs <;> simp [severity] <;> linarith

theorem C5_witness :
    (0:ℚ) ≤ 1 ∧ (0:ℚ) < 1 ∧
    severity (classify_proba 0 1 0) ≤ severity (classify_proba 0 1 1) :=
  ⟨by decide, by decide, C5_monotonicity 0 1 0 1 (by decide) (by decide)⟩


/-- Two `predict_url` calls whose stripped URLs agree produce, on
success, the same decision up to the timestamp and client fields. -/
theorem predict_url_stable (tSafe tMal : ℚ) (modelVersion : String)
    (scorer : String → Except String ℚ) (client1 client2 : Option String)
    (now1 now2 raw1 raw2 : String) (r1 r2 : DecisionRecord) (l1 l2 : LogEntry)
    (hs : pyStrip raw1 = pyStrip raw2)
    (h1 : predict_url tSafe tMal modelVersion scorer client1 now1 raw1 = .ok (r1, l1))
    (h2 : predict_url tSafe tMal modelVersion scorer client2 now2 raw2 = .ok (r2, l2)) :
    r1 = { r2 with timestamp := now1 } ∧
    l1 = { l2 with timestamp := now1, client_ip := client1 } ∧
    r1.url = pyStrip raw1 ∧ l1.url = pyStrip raw1 ∧
    l1.client_ip = client1 ∧ l2.client_ip = client2 ∧
    r1.timestamp = now1 ∧ r2.timestamp = now2 := by
  rw [hs]
  simp only [predict_url, hs] at h1 h2
  cases htr : is_trusted_domain (pyStrip raw2) <;>
    simp only [htr, Bool.false_eq_true, if_false, if_true] at h1 h2
  · cases hsc : scorer (pyStrip raw2) <;>
      simp only [model_predict, hsc, Except.ok.injEq, Prod.mk.injEq] at h1 h2
    · exact absurd h1 (by simp)
    · obtain ⟨hr1, hl1⟩ := h1
      obtain ⟨hr2, hl2⟩ := h2
      subst hr1 hl1 hr2 hl2
      exact ⟨rfl, rfl, rfl, rfl, rfl, rfl, rfl, rfl⟩
  · simp only [Except.ok.injEq, Prod.mk.injEq] at h1 h2
    obtain ⟨hr1, hl1⟩ := h1
    obtain ⟨hr2, hl2⟩ := h2
    subst hr1 hl1 hr2 hl2
    exact ⟨rfl, rfl, rfl, rfl, rfl, rfl, rfl, rfl⟩


/-- Claim C6: untrusted domains take the model path — probability from
the scorer, classification from the thresholds, source `model`; the
documented phishing example scores `malicious`. -/
theorem C6_model_path (tSafe tMal : ℚ) (modelVersion : String)
    (scorer : String → Except String ℚ) (client : Option String)
    (now raw : String) (p : ℚ)
    (htr : is_trusted_domain (pyStrip raw) = false)
    (hsc : scorer (pyStrip raw) = .ok p) :
    (∃ r l, predict_url tSafe tMal modelVersion scorer client now raw = .ok (r, l) ∧
       r.probability_malicious = p ∧ r.prediction = classify_proba tSafe tMal p ∧
       r.source = "model" ∧ r.trusted_domain = false) ∧
    (∃ r l, predict_url (3/10) (7/10) modelVersion (fun _ => .ok (92/100)) client now
        "http://secure-paypal-login.example.com" = .ok (r, l) ∧
       r.prediction = "malicious" ∧ r.source = "model" ∧
       r.probability_malicious = 92/100) := by
  constructor
  · have h : predict_url tSafe tMal modelVersion scorer client now raw =
        .ok ({ url := pyStrip raw, domain := extract_base_domain (pyStrip raw),
               trusted_domain := false, prediction := classify_proba tSafe tMal p,
               probability_malicious := p, thresholds_safe := tSafe,
               thresholds_malicious := tMal, model_version := modelVersion,
               source := "model", timestamp := now },
             { timestamp := now, client_ip := client, url := pyStrip raw,
               domain := extract_base_domain (pyStrip raw),
               prediction := classify_proba tSafe tMal p,
               probability_malicious := p, trusted_domain := false,
               thresholds_safe := tSafe, thresholds_malicious := tMal,
               model_version := modelVersion, source := "model" }) := by
      simp only [predict_url, htr, Bool.false_eq_true, if_false, model_predict, hsc]
    exact ⟨_, _, h, rfl, rfl, rfl, rfl⟩
  · have htr2 : is_trusted_domain
        (pyStrip "http://secure-paypal-login.example.com") = false := by decide
    have h : predict_url (3/10) (7/10) modelVersion (fun _ => .ok (92/100)) client now
        "http://secure-paypal-login.example.com" =
        .ok ({ url := pyStrip "http://secure-paypal-login.example.com",
               domain := extract_base_domain
                 (pyStrip "http://secure-paypal-login.example.com"),
               trusted_domain := false,
               prediction := classify_proba (3/10) (7/10) (92/100),
               probability_malicious := 92/100, thresholds_safe := 3/10,
               thresholds_malicious := 7/10, model_version := modelVersion,
               source := "model", timestamp := now },
             { timestamp := now, client_ip := client,
               url := pyStrip "http://secure-paypal-login.example.com",
               domain := extract_base_domain
                 (pyStrip "http://secure-paypal-login.example.com"),
               prediction := classify_proba (3/10) (7/10) (92/100),
               probability_malicious := 92/100, trusted_domain := false,
               thresholds_safe := 3/10, thresholds_malicious := 7/10,
               model_version := modelVersion, source := "model" }) := by
      simp only [predict_url, htr2, Bool.false_eq_true, if_false, model_predict]
    refine ⟨_, _, h, ?_, rfl, rfl⟩
    norm_num [classify_proba]

theorem C6_witness :
    is_trusted_domain (pyStrip "http://secure-paypal-login.example.com") = false ∧
    (∃ r l, predict_url (3/10) (7/10) "v2.0" (fun _ => .ok (92/100)) none "t0"
        "http://secure-paypal-login.example.com" = .ok (r, l) ∧
      r.prediction = "malicious" ∧ r.source = "model" ∧
      r.probability_malicious = 92/100) :=
  ⟨by decide,
   (C6_model_path (3/10) (7/10) "v2.0" (fun _ => .ok (92/100)) none "t0"
      "http://secure-paypal-login.example.com" (92/100) (by decide) rfl).2⟩

/-- Claim C7: a scorer failure propagates as an error and is never
coerced into a label; every successful decision carries exactly one of
the three labels. -/
theorem C7_scorer_failure (tSafe tMal : ℚ) (modelVersion : String)
    (scorer : String → Except String ℚ) (client : Option String)
    (now raw e : String)
    (htr : is_trusted_domain (pyStrip raw) = false)
    (hsc : scorer (pyStrip raw) = .error e) :
    predict_url tSafe tMal modelVersion scorer client now raw = .error e ∧
    (∀ (tS tM : ℚ) (mv : String) (scorer2 : String → Except String ℚ)
       (cl : Option String) (now2 raw2 : String) (r : DecisionRecord) (l : LogEntry),
       predict_url tS tM mv scorer2 cl now2 raw2 = .ok (r, l) →
       r.prediction = "benign" ∨ r.prediction = "suspicious" ∨
       r.prediction = "malicious") := by
  constructor
  · simp only [predict_url, htr, Bool.false_eq_true, if_false, model_predict, hsc]
  · intro tS tM mv scorer2 cl now2 raw2 r l h
    simp only [predict_url] at h
    cases htr2 : is_trusted_domain (pyStrip raw2) <;>
      simp only [htr2, Bool.false_eq_true, if_false, if_true] at h
    · cases hsc2 : scorer2 (pyStrip raw2) <;>
        simp only [model_predict, hsc2, Except.ok.injEq, Prod.mk.injEq] at h
      · exact absurd h (by simp)
      · obtain ⟨hr, hl⟩ := h
        subst hr hl
        unfold classify_proba
        split_ifs <;> simp
    · simp only [Except.ok.injEq, Prod.mk.injEq] at h
      obtain ⟨hr, hl⟩ := h
      subst hr hl
      simp

theorem C7_witness :
    is_trusted_domain (pyStrip "http://secure-paypal-login.example.com") = false ∧
    predict_url (3/10) (7/10) "v2.0" (fun _ => .error "scorer unavailable") none "t0"
      "http://secure-paypal-login.example.com" = .error "scorer unavailable" :=
  ⟨by decide,
   (C7_scorer_failure (3/10) (7/10) "v2.0" (fun _ => .error "scorer unavailable") none
      "t0" "http://secure-paypal-login.example.com" "scorer unavailable"
      (by decide) rfl).1⟩

/-- Claim C9: an input that parses without raising but yields no
network location resolves to the empty domain, is never trusted — even
when the bare text is itself a configured trusted entry — and is routed
to the model path. -/
theorem C9_no_netloc (tSafe tMal : ℚ) (modelVersion : String)
    (scorer : String → Except String ℚ) (client : Option String)
    (now raw : String)
    (hp : urlparse (pyStrip raw) = .ok "") :
    extract_base_domain (pyStrip raw) = "" ∧
    is_trusted_domain (pyStrip raw) = false ∧
    (∀ p, scorer (pyStrip raw) = .ok p →
       ∃ r l, predict_url tSafe tMal modelVersion scorer client now raw = .ok (r, l) ∧
         r.source = "model" ∧ r.probability_malicious = p ∧
         r.trusted_domain = false) ∧
    "google.com" ∈ TRUSTED_DOMAINS ∧ extract_base_domain "google.com" = "" ∧
    is_trusted_domain "google.com" = false := by
  have hd : extract_base_domain (pyStrip raw) = "" := by
    unfold extract_base_domain
    rw [hp]
    rfl
  have htr : is_trusted_domain (pyStrip raw) = false := by
    unfold is_trusted_domain is_trusted_domain_with
    rw [hd]
    decide
  refine ⟨hd, htr, ?_, by decide, by decide, by decide⟩
  intro p hsc
  have h : predict_url tSafe tMal modelVersion scorer client now raw =
      .ok ({ url := pyStrip raw, domain := extract_base_domain (pyStrip raw),
             trusted_domain := false, prediction := classify_proba tSafe tMal p,
             probability_malicious := p, thresholds_safe := tSafe,
             thresholds_malicious := tMal, model_version := modelVersion,
             source := "model", timestamp := now },
           { timestamp := now, client_ip := client, url := pyStrip raw,
             domain := extract_base_domain (pyStrip raw),
             prediction := classify_proba tSafe tMal p,
             probability_malicious := p, trusted_domain := false,
             thresholds_safe := tSafe, thresholds_malicious := tMal,
             model_version := modelVersion, source := "model" }) := by
    simp only [predict_url, htr, Bool.false_eq_true, if_false, model_predict, hsc]
  exact ⟨_, _, h, rfl, rfl, rfl⟩

theorem C9_witness :
    urlparse (pyStrip "google.com") = .ok "" ∧
    extract_base_domain (pyStrip "google.com") = "" ∧
    is_trusted_domain (pyStrip "google.com") = false :=
  ⟨rfl,
   (C9_no_netloc 0 1 "v2.0" (fun _ => .ok 0) none "t0" "google.com" rfl).1,
   (C9_no_netloc 0 1 "v2.0" (fun _ => .ok 0) none "t0" "google.com" rfl).2.1⟩

/-- Claim C4 counterexample: non-URL text is not a parsing failure —
it parses with an empty host, so the resolver returns the empty string,
not the lower-cased original input the claim promises. -/
theorem C4_counterexample :
    extract_base_domain "JustText" = "" ∧ pyLower "JustText" = "justtext" ∧
    extract_base_domain "JustText" ≠ pyLower "JustText" := by decide

/-- Claim C4 (amended): the resolver is total; a successful parse yields
the lower-cased netloc with one leading `www.` stripped; only a raising
parse (mismatched IPv6 bracket) falls back to the lower-cased input. -/
theorem C4_amended (url netloc e : String) :
    (urlparse url = .ok netloc →
       extract_base_domain url =
         (if ['w', 'w', 'w', '.'].isPrefixOf (pyLower netloc).data
          then (⟨(pyLower netloc).data.drop 4⟩ : String) else pyLower netloc)) ∧
    (urlparse url = .error e → extract_base_domain url = pyLower url) ∧
    extract_base_domain "https://www.Google.com/x" = "google.com" ∧
    extract_base_domain "" = "" ∧
    urlparse "http://[x" = .error "Invalid IPv6 URL" ∧
    extract_base_domain "http://[x" = pyLower "http://[x" := by
  refine ⟨?_, ?_, by decide, by decide, rfl, by decide⟩
  · intro h
    unfold extract_base_domain
    rw [h]
  · intro h
    unfold extract_base_domain
    rw [h]

theorem C4_witness :
    urlparse "http://[x" = .error "Invalid IPv6 URL" ∧
    extract_base_domain "http://[x" = pyLower "http://[x" :=
  ⟨rfl, (C4_amended "http://[x" "" "Invalid IPv6 URL").2.1 rfl⟩

/-- Claim C3: the trust decision holds exactly for an exact member or a
dot-prefixed entry that suffixes the domain; `mail.kfupm.edu.sa` is
trusted once `.edu.sa` is configured, `google.com` exactly,
`evil-google.com` never. -/
theorem C3_trust_matching :
    (∀ (registry : List String) (domain : String),
       domainTrustedIn registry domain = true ↔
         (domain ∈ registry ∨
          ∃ t ∈ registry, (∃ rest, t.data = '.' :: rest) ∧
            ∃ pre, pre ++ t.data = domain.data)) ∧
    (∀ (registry : List String) (url : String),
       is_trusted_domain_with registry url =
         domainTrustedIn registry (extract_base_domain url)) ∧
    domainTrustedIn (".edu.sa" :: TRUSTED_DOMAINS) "mail.kfupm.edu.sa" = true ∧
    domainTrustedIn TRUSTED_DOMAINS "google.com" = true ∧
    "google.com" ∈ TRUSTED_DOMAINS ∧
    domainTrustedIn TRUSTED_DOMAINS "evil-google.com" = false ∧
    domainTrustedIn (".edu.sa" :: TRUSTED_DOMAINS) "evil-google.com" = false := by
  refine ⟨?_, fun _ _ => rfl, by decide, by decide, by decide, by decide, by decide⟩
  intro registry domain
  unfold domainTrustedIn
  split_ifs with hc
  · simp only [true_iff]
    exact Or.inl (by simpa using hc)
  · constructor
    · intro h
      rcases List.any_eq_true.mp h with ⟨t, ht, hpred⟩
      rw [Bool.and_eq_true] at hpred
      obtain ⟨hdot, hsuf⟩ := hpred
      refine Or.inr ⟨t, ht, ?_, List.isSuffixOf_iff_suffix.mp hsuf⟩
      have hdot' : t.data.headD ' ' = '.' := of_decide_eq_true hdot
      cases hdata : t.data with
      | nil => rw [hdata] at hdot'; simp at hdot'
      | cons c cs =>
          rw [hdata] at hdot'
          simp only [List.headD_cons] at hdot'
          exact ⟨cs, by rw [hdot']⟩
    · rintro (h | ⟨t, ht, ⟨rest, hrest⟩, pre, hpre⟩)
      · exact absurd (by simpa using h : registry.contains domain = true) hc
      · refine List.any_eq_true.mpr ⟨t, ht, ?_⟩
        rw [Bool.and_eq_true]
        refine ⟨decide_eq_true (by rw [hrest]; rfl), ?_⟩
        exact List.isSuffixOf_iff_suffix.mpr ⟨pre, hpre⟩


/-- Claim C8: with fixed configuration and a deterministic scorer, two
evaluations of the same URL agree on every field except the timestamp. -/
theorem C8_determinism (tSafe tMal : ℚ) (modelVersion : String)
    (scorer : String → Except String ℚ) (client : Option String)
    (now1 now2 raw : String) (r1 r2 : DecisionRecord) (l1 l2 : LogEntry)
    (h1 : predict_url tSafe tMal modelVersion scorer client now1 raw = .ok (r1, l1))
    (h2 : predict_url tSafe tMal modelVersion scorer client now2 raw = .ok (r2, l2)) :
    r1 = { r2 with timestamp := now1 } ∧
    r1.prediction = r2.prediction ∧
    r1.probability_malicious = r2.probability_malicious ∧
    r1.domain = r2.domain ∧ r1.trusted_domain = r2.trusted_domain ∧
    r1.source = r2.source ∧ r1.url = r2.url ∧
    r1.model_version = r2.model_version ∧
    r1.timestamp = now1 ∧ r2.timestamp = now2 := by
  obtain ⟨hr, hl, hu, hlu, hc1, hc2, ht1, ht2⟩ :=
    predict_url_stable tSafe tMal modelVersion scorer client client now1 now2 raw raw
      r1 r2 l1 l2 rfl h1 h2
  subst hr
  exact ⟨rfl, rfl, rfl, rfl, rfl, rfl, rfl, rfl, rfl, ht2⟩

theorem C8_witness :
    (predict_url 0 1 "v2.0" (fun _ => .ok 0) none "t1" "https://google.com/" =
      .ok ({ url := "https://google.com/", domain := "google.com",
             trusted_domain := true, prediction := "benign",
             probability_malicious := 1/100, thresholds_safe := 0,
             thresholds_malicious := 1, model_version := "v2.0",
             source := "whitelist", timestamp := "t1" },
           { timestamp := "t1", client_ip := none, url := "https://google.com/",
             domain := "google.com", prediction := "benign",
             probability_malicious := 1/100, trusted_domain := true,
             thresholds_safe := 0, thresholds_malicious := 1,
             model_version := "v2.0", source := "whitelist" })) ∧
    (predict_url 0 1 "v2.0" (fun _ => .ok 0) none "t2" "https://google.com/" =
      .ok ({ url := "https://google.com/", domain := "google.com",
             trusted_domain := true, prediction := "benign",
             probability_malicious := 1/100, thresholds_safe := 0,
             thresholds_malicious := 1, model_version := "v2.0",
             source := "whitelist", timestamp := "t2" },
           { timestamp := "t2", client_ip := none, url := "https://google.com/",
             domain := "google.com", prediction := "benign",
             probability_malicious := 1/100, trusted_domain := true,
             thresholds_safe := 0, thresholds_malicious := 1,
             model_version := "v2.0", source := "whitelist" })) ∧
    ({ url := "https://google.com/", domain := "google.com",
       trusted_domain := true, prediction := "benign",
       probability_malicious := 1/100, thresholds_safe := 0,
       thresholds_malicious := 1, model_version := "v2.0",
       source := "whitelist", timestamp := "t1" } : DecisionRecord).prediction =
      ({ url := "https://google.com/", domain := "google.com",
         trusted_domain := true, prediction := "benign",
         probability_malicious := 1/100, thresholds_safe := 0,
         thresholds_malicious := 1, model_version := "v2.0",
         source := "whitelist", timestamp := "t2" } : DecisionRecord).prediction :=
  ⟨rfl, rfl,
   (C8_determinism 0 1 "v2.0" (fun _ => .ok 0) none "t1" "t2" "https://google.com/"
      _ _ _ _ rfl rfl).2.1⟩

/-- Claim C10: the submitted URL is stripped of surrounding whitespace
before any processing, the stripped string is what the response and the
audit record carry, and inputs equal after stripping decide alike up to
the timestamp. -/
theorem C10_whitespace (tSafe tMal : ℚ) (modelVersion : String)
    (scorer : String → Except String ℚ) (client : Option String)
    (now1 now2 raw1 raw2 : String) (r1 r2 : DecisionRecord) (l1 l2 : LogEntry)
    (hs : pyStrip raw1 = pyStrip raw2)
    (h1 : predict_url tSafe tMal modelVersion scorer client now1 raw1 = .ok (r1, l1))
    (h2 : predict_url tSafe tMal modelVersion scorer client now2 raw2 = .ok (r2, l2)) :
    r1.url = pyStrip raw1 ∧ l1.url = pyStrip raw1 ∧
    r1 = { r2 with timestamp := now1 } ∧
    l1 = { l2 with timestamp := now1 } ∧
    r1.timestamp = now1 ∧ r2.timestamp = now2 := by
  obtain ⟨hr, hl, hu, hlu, hc1, hc2, ht1, ht2⟩ :=
    predict_url_stable tSafe tMal modelVersion scorer client client now1 now2 raw1 raw2
      r1 r2 l1 l2 hs h1 h2
  refine ⟨hu, hlu, hr, ?_, ht1, ht2⟩
  rw [hl, ← hc2]

theorem C10_witness :
    pyStrip "  https://google.com/  " = pyStrip "https://google.com/" ∧
    (predict_url 0 1 "v2.0" (fun _ => .ok 0) none "t1" "  https://google.com/  " =
      .ok ({ url := "https://google.com/", domain := "google.com",
             trusted_domain := true, prediction := "benign",
             probability_malicious := 1/100, thresholds_safe := 0,
             thresholds_malicious := 1, model_version := "v2.0",
             source := "whitelist", timestamp := "t1" },
           { timestamp := "t1", client_ip := none, url := "https://google.com/",
             domain := "google.com", prediction := "benign",
             probability_malicious := 1/100, trusted_domain := true,
             thresholds_safe := 0, thresholds_malicious := 1,
             model_version := "v2.0", source := "whitelist" })) ∧
    (predict_url 0 1 "v2.0" (fun _ => .ok 0) none "t2" "https://google.com/" =
      .ok ({ url := "https://google.com/", domain := "google.com",
             trusted_domain := true, prediction := "benign",
             probability_malicious := 1/100, thresholds_safe := 0,
             thresholds_malicious := 1, model_version := "v2.0",
             source := "whitelist", timestamp := "t2" },
           { timestamp := "t2", client_ip := none, url := "https://google.com/",
             domain := "google.com", prediction := "benign",
             probability_malicious := 1/100, trusted_domain := true,
             thresholds_safe := 0, thresholds_malicious := 1,
             model_version := "v2.0", source := "whitelist" })) ∧
    ({ url := "https://google.com/", domain := "google.com",
       trusted_domain := true, prediction := "benign",
       probability_malicious := 1/100, thresholds_safe := 0,
       thresholds_malicious := 1, model_version := "v2.0",
       source := "whitelist", timestamp := "t1" } : DecisionRecord).url =
      pyStrip "  https://google.com/  " :=
  ⟨by decide, rfl, rfl,
   (C10_whitespace 0 1 "v2.0" (fun _ => .ok 0) none "t1" "t2"
      "  https://google.com/  " "https://google.com/" _ _ _ _
      (by decide) rfl rfl).1⟩

end UrlScam
